import Mathlib

/-!
Shallow embedding of the Stripe-Subscriptions-Backend service (src/server.js).

The service has three Express handlers: the webhook receiver
(POST /api/stripe/webhook), the payment-sheet issuer
(POST /api/stripe/payment-sheet) and the cancellation handler
(POST /api/stripe/cancel-subscription).  Firestore documents are modelled as
association lists from field names to values; the Firestore operations
`setDoc` (create or fully replace) and `updateDoc` (merge into an existing
document, throwing when the document is absent) are modelled explicitly.
External collaborators (the Stripe SDK, Firestore transient failures) are
modelled as oracles passed to each handler; each handler also returns the
ordered trace of outbound calls it issued, so that claims about "never calls
the provider" are statable.
-/

namespace StripeBackend

/-- A Firestore field value: JS strings, numbers, booleans, Date values
(milliseconds since the epoch, as produced by `new Date(seconds * 1000)`)
and null. -/
inductive Value where
  | str (s : String)
  | num (n : Int)
  | boolean (b : Bool)
  | date (ms : Int)
  | null
deriving DecidableEq, Repr

/-- Association-list lookup keyed by strings; the first binding wins. -/
def lookupA {α : Type} : List (String × α) → String → Option α
  | [], _ => none
  | (k, v) :: m, k1 => if k1 = k then some v else lookupA m k1

/-- Remove every binding of the given key. -/
def removeA {α : Type} : List (String × α) → String → List (String × α)
  | [], _ => []
  | (k, v) :: m, k0 => if k = k0 then removeA m k0 else (k, v) :: removeA m k0

/-- Insert or overwrite the binding of a key. -/
def insertA {α : Type} (m : List (String × α)) (k : String) (v : α) :
    List (String × α) :=
  (k, v) :: removeA m k

theorem lookupA_removeA {α : Type} (m : List (String × α)) (k0 k : String) :
    lookupA (removeA m k0) k = if k = k0 then none else lookupA m k := by
  induction m with
  | nil => simp [removeA, lookupA]
  | cons a m ih =>
    obtain ⟨ka, va⟩ := a
    by_cases h1 : ka = k0
    · subst h1
      by_cases h2 : k = ka
      · subst h2; simp [removeA, lookupA, ih]
      · simp [removeA, lookupA, ih, h2]
    · by_cases h2 : k = ka
      · subst h2
        have h3 : ¬ k = k0 := h1
        simp [removeA, lookupA, h1, h3]
      · simp [removeA, lookupA, h1, h2, ih]

theorem lookupA_insertA {α : Type} (m : List (String × α)) (k : String) (v : α)
    (k1 : String) :
    lookupA (insertA m k v) k1 = if k1 = k then some v else lookupA m k1 := by
  by_cases h : k1 = k
  · simp [insertA, lookupA, h]
  · simp [insertA, lookupA, h, lookupA_removeA]

/-- A Firestore document: field names mapped to values. -/
abbrev Doc := List (String × Value)

/-- The subscription collection: documents keyed by uid. -/
abbrev Store := List (String × Doc)

/-- Read one field of a document. -/
def getField (d : Doc) (k : String) : Option Value :=
  lookupA d k

/-- Merge a list of field updates into a document, left to right, as the
object literal passed to Firestore updateDoc does. -/
def updateFields (d : Doc) : List (String × Value) → Doc
  | [] => d
  | (k, v) :: fs => updateFields (insertA d k v) fs

/-- The last binding of a key in a field-update list: the one whose value
ends up in the merged document. -/
def lastBinding : List (String × Value) → String → Option Value
  | [], _ => none
  | (k, v) :: fs, k1 =>
    match lastBinding fs k1 with
    | some w => some w
    | none => if k1 = k then some v else none

theorem getField_updateFields (fs : List (String × Value)) (d : Doc) :
    getField (updateFields d fs) =
      fun k1 =>
        match lastBinding fs k1 with
        | some w => some w
        | none => getField d k1 := by
  induction fs generalizing d with
  | nil => funext k1; simp [updateFields, lastBinding]
  | cons a fs ih =>
    obtain ⟨k0, v0⟩ := a
    funext k1
    show getField (updateFields (insertA d k0 v0) fs) k1 = _
    rw [ih]
    simp only [lastBinding]
    cases lastBinding fs k1 with
    | some w => rfl
    | none =>
      simp only [getField, lookupA_insertA]
      by_cases h : k1 = k0 <;> simp [h]

theorem updateFields_idem (fs : List (String × Value)) (d : Doc) (k : String) :
    getField (updateFields (updateFields d fs) fs) k =
      getField (updateFields d fs) k := by
  rw [getField_updateFields, getField_updateFields]
  cases h : lastBinding fs k with
  | some w => simp [h]
  | none => simp [h]

/-- Look a document up by uid. -/
def getDocu (s : Store) (uid : String) : Option Doc :=
  lookupA s uid

/-- Firestore setDoc without a merge option: create the document, or fully
replace it when it already exists. -/
def setDocStore (s : Store) (uid : String) (fields : List (String × Value)) :
    Store :=
  insertA s uid fields

/-- Firestore updateDoc: throws (returns none) when the document does not
exist; otherwise merges the given fields into the existing document. -/
def updateDocStore (s : Store) (uid : String)
    (fields : List (String × Value)) : Option Store :=
  match getDocu s uid with
  | none => none
  | some d => some (insertA s uid (updateFields d fields))

/-- Observation of the store used to compare final states: whether a
document exists at a uid, and the value of each of its fields. -/
def viewField (s : Store) (u k : String) : Option (Option Value) :=
  (getDocu s u).map (fun d => getField d k)

/-- Two stores hold identical documents with identical field values. -/
def StoreEquiv (s1 s2 : Store) : Prop :=
  ∀ u k, viewField s1 u k = viewField s2 u k

theorem viewField_insertA (s : Store) (uid : String) (d : Doc)
    (u k : String) :
    viewField (insertA s uid d) u k =
      if u = uid then some (getField d k) else viewField s u k := by
  unfold viewField getDocu
  rw [lookupA_insertA]
  by_cases h : u = uid <;> simp [h]

/-- Applying the same updateDoc (same uid, same field values) a second time
leaves every document and every field value unchanged: the merge is
idempotent, and a merge that throws (missing document) changes nothing. -/
theorem updateDocStore_idem (s s1 : Store) (uid : String)
    (fields : List (String × Value))
    (h : updateDocStore s uid fields = some s1) :
    updateDocStore s1 uid fields = some (insertA s1 uid
      (updateFields (updateFields ((getDocu s uid).getD []) fields) fields))
    ∧ ∀ s2, updateDocStore s1 uid fields = some s2 → StoreEquiv s2 s1 := by
  unfold updateDocStore at h
  cases hd : getDocu s uid with
  | none => rw [hd] at h; exact absurd h (by simp)
  | some d =>
    rw [hd] at h
    simp only [Option.some.injEq] at h
    subst h
    have h1 : getDocu (insertA s uid (updateFields d fields)) uid =
        some (updateFields d fields) := by
      unfold getDocu; rw [lookupA_insertA]; simp
    constructor
    · unfold updateDocStore
      rw [h1]
      simp
    · intro s2 h2
      unfold updateDocStore at h2
      rw [h1] at h2
      simp only [Option.some.injEq] at h2
      subst h2
      intro u k
      rw [viewField_insertA]
      by_cases hu : u = uid
      · subst hu
        rw [viewField_insertA]
        simp [updateFields_idem]
      · simp [hu]

/-- Truthiness of a possibly absent JS string: undefined and the empty
string are falsy, every other string is truthy, as tested by the source
code guards of the form if (!x). -/
def truthyStr : Option String → Bool
  | none => false
  | some s => !(s == "")

/-- Truthiness of a possibly absent Firestore field value, as tested by the
guard if (!subscriptionId) in the cancellation handler. -/
def truthyVal : Option Value → Bool
  | none => false
  | some (Value.str s) => !(s == "")
  | some (Value.num n) => !(n == 0)
  | some (Value.boolean b) => b
  | some (Value.date _) => true
  | some Value.null => false

/-- JS string coercion of a possibly undefined value, as in the template
literal User-dollar-uid of the payment-sheet handler. -/
def jsStr : Option String → String
  | none => "undefined"
  | some s => s

/-- A subscription item price (subscription.items.data entries carry a
price object with an id). -/
structure Price where
  id : String
deriving DecidableEq, Repr

/-- An entry of subscription.items.data. -/
structure SubItem where
  price : Price
deriving DecidableEq, Repr

/-- The event payload (event.data.object), flattened over exactly the
fields the webhook handler reads.  Subscription events read id, customer,
status, items.data, created, current_period_start, current_period_end and
cancel_at_period_end; invoice events read customer, subscription, created,
amount_paid and invoice_pdf.  The subscription field of an invoice is the
referenced subscription id, or none when the invoice is not
subscription-related. -/
structure SObject where
  id : String
  customer : String
  status : String
  items : List SubItem
  created : Int
  current_period_start : Int
  current_period_end : Int
  cancel_at_period_end : Bool
  subscription : Option String
  amount_paid : Int
  invoice_pdf : String
deriving DecidableEq, Repr

/-- A verified Stripe webhook event. -/
structure Event where
  type : String
  object : SObject
deriving DecidableEq, Repr

/-- The metadata of a Stripe customer; the uid entry is absent when the
customer was not tagged with an application user id. -/
structure Metadata where
  uid : Option String
deriving DecidableEq, Repr

/-- A Stripe customer as returned by stripe.customers.retrieve. -/
structure Customer where
  metadata : Metadata
deriving DecidableEq, Repr

/-- A JSON response body sent by one of the handlers. -/
inductive RespBody where
  | errorMsg (msg : String)
  | received
  | paymentSheet (paymentIntent ephemeralKey customer subscriptionId : String)
  | cancelOk (message : String) (currentPeriodEnd : Value)
deriving DecidableEq, Repr

/-- An HTTP response: status code and JSON body. -/
structure Resp where
  status : Nat
  body : RespBody
deriving DecidableEq, Repr

/-- One outbound call issued by a handler, to the billing provider or to
the document store, recorded in issue order. -/
inductive ExtCall where
  | createCustomer (name : String) (metadataUid : Option String)
  | createEphemeralKey (customer : String)
  | createSubscription (customer : String) (priceId : Option String)
  | retrieveCustomer (id : String)
  | updateSubscription (id : String) (cancelAtPeriodEnd : Bool)
  | getDocOp (uid : String)
  | setDocOp (uid : String)
  | updateDocOp (uid : String)
deriving DecidableEq, Repr

/-- The oracle for one webhook request: the outcome of
stripe.webhooks.constructEvent on this raw body, signature and secret, and
the customer objects stripe.customers.retrieve returns. -/
structure WebhookWorld where
  constructEvent : Except String Event
  customers : String → Customer

/-- The observable outcome of one webhook request: the response, the store
after the request, the console log lines and the outbound call trace. -/
structure WebhookOut where
  resp : Resp
  store : Store
  logs : List String
  calls : List ExtCall
deriving DecidableEq, Repr

/-- Message of the TypeError raised by reading
subscription.items.data[0].price when items.data is empty. -/
def itemsTypeErrorMsg : String :=
  "Cannot read properties of undefined (reading price)"

/-- Message of the Firestore error raised by updateDoc on a document that
does not exist. -/
def noDocMsg : String := "No document to update"

/-- Field updates written by the customer.subscription.created branch
(src/server.js lines 76-87). -/
def subCreatedFields (sub : SObject) (customerId priceId : String) :
    List (String × Value) :=
  [("status", Value.str sub.status),
   ("planId", Value.str priceId),
   ("subscriptionId", Value.str sub.id),
   ("customerId", Value.str customerId),
   ("createdAt", Value.date (sub.created * 1000)),
   ("currentPeriodStart", Value.date (sub.current_period_start * 1000)),
   ("currentPeriodEnd", Value.date (sub.current_period_end * 1000)),
   ("cancelAtPeriodEnd", Value.boolean sub.cancel_at_period_end)]

/-- Field updates written by the customer.subscription.updated branch
(src/server.js lines 111-120). -/
def subUpdatedFields (sub : SObject) (customerId priceId : String) :
    List (String × Value) :=
  [("status", Value.str sub.status),
   ("planId", Value.str priceId),
   ("customerId", Value.str customerId),
   ("currentPeriodStart", Value.date (sub.current_period_start * 1000)),
   ("currentPeriodEnd", Value.date (sub.current_period_end * 1000)),
   ("cancelAtPeriodEnd", Value.boolean sub.cancel_at_period_end)]

/-- Field updates written by the invoice.payment_succeeded branch
(src/server.js lines 141-147). -/
def invoiceSucceededFields (invoice : SObject) (customerId : String) :
    List (String × Value) :=
  [("status", Value.str "active"),
   ("customerId", Value.str customerId),
   ("lastPaymentDate", Value.date (invoice.created * 1000)),
   ("lastPaymentAmount", Value.num invoice.amount_paid),
   ("invoicePdf", Value.str invoice.invoice_pdf)]

/-- Field updates written by the invoice.payment_failed branch
(src/server.js lines 180-184). -/
def invoiceFailedFields (invoice : SObject) (customerId : String) :
    List (String × Value) :=
  [("status", Value.str "past_due"),
   ("customerId", Value.str customerId),
   ("lastFailedPaymentDate", Value.date (invoice.created * 1000))]

/-- Log line of the uid-missing guard of the webhook branches. -/
def uidMissingLog (customerId : String) : String :=
  "UID missing in Stripe metadata for customer: " ++ customerId

/-- Shared tail of the four handled webhook branches: issue the Firestore
updateDoc with the fields the branch computed.  When the document does not
exist, updateDoc throws and the catch block of the handler answers 400 with
the error message; otherwise the switch falls through to the final
200 response with body received true. -/
def runBranchWrite (store : Store) (uid : String)
    (fields : List (String × Value)) (calls : List ExtCall) : WebhookOut :=
  match updateDocStore store uid fields with
  | none =>
    { resp := ⟨400, RespBody.errorMsg noDocMsg⟩, store := store,
      logs := ["Firestore Update Error: " ++ noDocMsg],
      calls := calls ++ [ExtCall.updateDocOp uid] }
  | some s2 =>
    { resp := ⟨200, RespBody.received⟩, store := s2, logs := [],
      calls := calls ++ [ExtCall.updateDocOp uid] }

/-- Dispatch of a verified webhook event over event.type
(src/server.js lines 56-209): the switch statement, the per-branch uid
resolution via stripe.customers.retrieve, the guards, the Firestore
updateDoc calls and the surrounding try/catch. -/
def webhookDispatch (w : WebhookWorld) (ev : Event) (store : Store) :
    WebhookOut :=
  if ev.type = "customer.subscription.created" then
    let sub := ev.object
    let customerId := sub.customer
    let uid := (w.customers customerId).metadata.uid
    let calls := [ExtCall.retrieveCustomer customerId]
    if truthyStr uid = false then
      { resp := ⟨400, RespBody.errorMsg "UID not found in metadata"⟩,
        store := store, logs := [uidMissingLog customerId], calls := calls }
    else
      match sub.items.head? with
      | none =>
        { resp := ⟨400, RespBody.errorMsg itemsTypeErrorMsg⟩, store := store,
          logs := ["Firestore Update Error: " ++ itemsTypeErrorMsg],
          calls := calls }
      | some item =>
        runBranchWrite store (jsStr uid)
          (subCreatedFields sub customerId item.price.id) calls
  else if ev.type = "customer.subscription.updated" then
    let sub := ev.object
    let customerId := sub.customer
    let uid := (w.customers customerId).metadata.uid
    let calls := [ExtCall.retrieveCustomer customerId]
    if truthyStr uid = false then
      { resp := ⟨400, RespBody.errorMsg "UID not found in metadata"⟩,
        store := store, logs := [uidMissingLog customerId], calls := calls }
    else
      match sub.items.head? with
      | none =>
        { resp := ⟨400, RespBody.errorMsg itemsTypeErrorMsg⟩, store := store,
          logs := ["Firestore Update Error: " ++ itemsTypeErrorMsg],
          calls := calls }
      | some item =>
        runBranchWrite store (jsStr uid)
          (subUpdatedFields sub customerId item.price.id) calls
  else if ev.type = "invoice.payment_succeeded" then
    let invoice := ev.object
    let customerId := invoice.customer
    let uid := (w.customers customerId).metadata.uid
    let calls := [ExtCall.retrieveCustomer customerId]
    if truthyStr uid = false then
      { resp := ⟨400, RespBody.errorMsg "UID not found in metadata"⟩,
        store := store, logs := [uidMissingLog customerId], calls := calls }
    else if truthyStr invoice.subscription then
      runBranchWrite store (jsStr uid)
        (invoiceSucceededFields invoice customerId) calls
    else
      { resp := ⟨200, RespBody.received⟩, store := store, logs := [],
        calls := calls }
  else if ev.type = "invoice.payment_failed" then
    let invoice := ev.object
    let customerId := invoice.customer
    let uid := (w.customers customerId).metadata.uid
    let calls := [ExtCall.retrieveCustomer customerId]
    if truthyStr uid = false then
      { resp := ⟨400, RespBody.errorMsg "UID not found in metadata"⟩,
        store := store, logs := [uidMissingLog customerId], calls := calls }
    else if truthyStr invoice.subscription then
      runBranchWrite store (jsStr uid)
        (invoiceFailedFields invoice customerId) calls
    else
      { resp := ⟨200, RespBody.received⟩, store := store, logs := [],
        calls := calls }
  else
    { resp := ⟨200, RespBody.received⟩, store := store,
      logs := ["Unhandled event type: " ++ ev.type], calls := [] }

/-- The webhook handler, POST /api/stripe/webhook
(src/server.js lines 23-211): the missing-signature guard, the
missing-signing-secret guard, signature verification through
stripe.webhooks.constructEvent on the raw body, then event dispatch.  The
webhookKey argument is the STRIPE_WEBHOOK_KEY environment variable. -/
def webhook (webhookKey sig : Option String) (w : WebhookWorld)
    (store : Store) : WebhookOut :=
  if truthyStr sig = false then
    { resp := ⟨400, RespBody.errorMsg "Webhook Error: Missing signature"⟩,
      store := store, logs := ["Missing Stripe signature header"],
      calls := [] }
  else if truthyStr webhookKey = false then
    { resp := ⟨500, RespBody.errorMsg "Server configuration error"⟩,
      store := store,
      logs := ["Missing STRIPE_WEBHOOK_SECRET environment variable"],
      calls := [] }
  else
    match w.constructEvent with
    | Except.error m =>
      { resp := ⟨400, RespBody.errorMsg ("Webhook Error: " ++ m)⟩,
        store := store, logs := ["Webhook Signature Error: " ++ m],
        calls := [] }
    | Except.ok ev =>
      let out := webhookDispatch w ev store
      { out with logs := ("Webhook event received: " ++ ev.type) :: out.logs }

/-- The oracle for one payment-sheet request: the outcomes of the three
Stripe calls the handler makes, in order, and whether the final Firestore
setDoc throws (some message) or succeeds (none).  createCustomer yields the
new customer id; createEphemeralKey yields the ephemeral secret;
createSubscription yields the subscription id together with
latest_invoice.payment_intent.client_secret. -/
structure PaymentSheetWorld where
  createCustomer : Except String String
  createEphemeralKey : Except String String
  createSubscription : Except String (String × String)
  setDocErr : Option String
deriving Repr

/-- The observable outcome of one payment-sheet request.  Express sends the
first response of resps to the client; a later entry records the
res.status(400) attempt the catch block makes after the success response
has already been sent (it fails inside Express and never reaches the
client). -/
structure PaymentSheetOut where
  resps : List Resp
  store : Store
  calls : List ExtCall
deriving DecidableEq, Repr

/-- Message of the Firestore error raised when doc() is given an undefined
document path segment (the uid of the request body when it is absent). -/
def badDocPathMsg : String := "Invalid document reference"

/-- The fields written by the payment-sheet setDoc
(src/server.js lines 243-249). -/
def pendingFields (uid customerId subscriptionId : String) :
    List (String × Value) :=
  [("uid", Value.str uid),
   ("status", Value.str "pending"),
   ("stripeCustomerId", Value.str customerId),
   ("subscriptionId", Value.str subscriptionId),
   ("currentPeriodEnd", Value.null)]

/-- The payment-sheet handler, POST /api/stripe/payment-sheet
(src/server.js lines 213-255): destructure uid and priceId from the body
with no validation, create a Stripe customer tagged with uid in metadata,
create an ephemeral key, create a default_incomplete subscription, send the
200 response with the client secrets, and only then setDoc the pending
subscription document.  Any exception before the response is sent reaches
the catch block and answers 400 with the error message. -/
def paymentSheet (uid priceId : Option String) (w : PaymentSheetWorld)
    (store : Store) : PaymentSheetOut :=
  let c1 := ExtCall.createCustomer ("User-" ++ jsStr uid) uid
  match w.createCustomer with
  | Except.error m =>
    { resps := [⟨400, RespBody.errorMsg m⟩], store := store, calls := [c1] }
  | Except.ok customerId =>
    let c2 := ExtCall.createEphemeralKey customerId
    match w.createEphemeralKey with
    | Except.error m =>
      { resps := [⟨400, RespBody.errorMsg m⟩], store := store,
        calls := [c1, c2] }
    | Except.ok ephemeralSecret =>
      let c3 := ExtCall.createSubscription customerId priceId
      match w.createSubscription with
      | Except.error m =>
        { resps := [⟨400, RespBody.errorMsg m⟩], store := store,
          calls := [c1, c2, c3] }
      | Except.ok (subscriptionId, clientSecret) =>
        let okResp : Resp :=
          ⟨200, RespBody.paymentSheet clientSecret ephemeralSecret
            customerId subscriptionId⟩
        match uid with
        | none =>
          { resps := [okResp, ⟨400, RespBody.errorMsg badDocPathMsg⟩],
            store := store, calls := [c1, c2, c3] }
        | some u =>
          match w.setDocErr with
          | some m =>
            { resps := [okResp, ⟨400, RespBody.errorMsg m⟩], store := store,
              calls := [c1, c2, c3, ExtCall.setDocOp u] }
          | none =>
            { resps := [okResp],
              store := setDocStore store u
                (pendingFields u customerId subscriptionId),
              calls := [c1, c2, c3, ExtCall.setDocOp u] }

/-- The oracle for one cancellation request: the outcome of
stripe.subscriptions.update (returning current_period_end, in seconds, of
the updated subscription), whether the final Firestore updateDoc throws
with some message, and the current wall-clock time in milliseconds (the
value of new Date() at the cancelledAt write). -/
structure CancelWorld where
  updateSubscription : Except String Int
  updateDocErr : Option String
  now : Int
deriving Repr

/-- The observable outcome of one cancellation request. -/
structure CancelOut where
  resp : Resp
  store : Store
  calls : List ExtCall
deriving DecidableEq, Repr

/-- Success message of the cancellation handler. -/
def cancelMessage : String :=
  "Subscription will be cancelled at the end of the billing period"

/-- The fields written by the cancellation updateDoc
(src/server.js lines 297-304). -/
def cancelFields (now cpe : Int) : List (String × Value) :=
  [("status", Value.str "cancelling"),
   ("cancelAtPeriodEnd", Value.boolean true),
   ("cancelledAt", Value.date now),
   ("currentPeriodEnd", Value.date (cpe * 1000))]

/-- String coercion of the stored subscriptionId field as it is passed to
stripe.subscriptions.update; only the string case occurs for truthy stored
values written by this service. -/
def valStr : Option Value → String
  | some (Value.str s) => s
  | _ => "undefined"

/-- The cancellation handler, POST /api/stripe/cancel-subscription
(src/server.js lines 258-324): require uid, getDoc the subscription
document (404 when absent), require its subscriptionId field (400 when
falsy), ask Stripe to update the subscription with cancel_at_period_end
true, updateDoc the document and answer 200 with the success body.  Any
exception reaches the catch block and answers 400 with the error
message. -/
def cancelSubscription (uid : Option String) (w : CancelWorld)
    (store : Store) : CancelOut :=
  if truthyStr uid = false then
    { resp := ⟨400, RespBody.errorMsg "UID is required"⟩, store := store,
      calls := [] }
  else
    let u := jsStr uid
    match getDocu store u with
    | none =>
      { resp := ⟨404, RespBody.errorMsg "No subscription found"⟩,
        store := store, calls := [ExtCall.getDocOp u] }
    | some d =>
      let subscriptionId := getField d "subscriptionId"
      if truthyVal subscriptionId = false then
        { resp := ⟨400, RespBody.errorMsg "No active subscription ID found"⟩,
          store := store, calls := [ExtCall.getDocOp u] }
      else
        let sid := valStr subscriptionId
        let calls0 := [ExtCall.getDocOp u, ExtCall.updateSubscription sid true]
        match w.updateSubscription with
        | Except.error m =>
          { resp := ⟨400, RespBody.errorMsg m⟩, store := store,
            calls := calls0 }
        | Except.ok cpe =>
          match w.updateDocErr with
          | some m =>
            { resp := ⟨400, RespBody.errorMsg m⟩, store := store,
              calls := calls0 ++ [ExtCall.updateDocOp u] }
          | none =>
            match updateDocStore store u (cancelFields w.now cpe) with
            | none =>
              { resp := ⟨400, RespBody.errorMsg noDocMsg⟩, store := store,
                calls := calls0 ++ [ExtCall.updateDocOp u] }
            | some s2 =>
              { resp := ⟨200, RespBody.cancelOk cancelMessage
                  (Value.date (cpe * 1000))⟩,
                store := s2, calls := calls0 ++ [ExtCall.updateDocOp u] }

theorem runBranchWrite_store_idem (store : Store) (uid : String)
    (fields : List (String × Value)) (calls1 calls2 : List ExtCall) :
    StoreEquiv
      (runBranchWrite (runBranchWrite store uid fields calls1).store uid
        fields calls2).store
      (runBranchWrite store uid fields calls1).store := by
  unfold runBranchWrite
  cases h : updateDocStore store uid fields with
  | none =>
    simp only [h]
    intro u k
    rfl
  | some s1 =>
    obtain ⟨h2, h3⟩ := updateDocStore_idem store s1 uid fields h
    simp only [h]
    cases h4 : updateDocStore s1 uid fields with
    | none => rw [h2] at h4; exact absurd h4 (by simp)
    | some s2 =>
      simp only
      exact h3 s2 h4

/-- C1: for a verified invoice.payment_succeeded webhook event whose
customer metadata carries a uid and whose invoice references a
subscription, processing the same event a second time leaves every
subscription document with exactly the field values it had after the first
processing: the written fields are computed only from the event, so replay
is idempotent. -/
theorem c1_invoice_payment_succeeded_replay_idempotent
    (key sig : Option String) (w : WebhookWorld) (store : Store) (ev : Event)
    (hsig : truthyStr sig = true)
    (hkey : truthyStr key = true)
    (hev : w.constructEvent = Except.ok ev)
    (ht : ev.type = "invoice.payment_succeeded")
    (huid : truthyStr (w.customers ev.object.customer).metadata.uid = true)
    (hsub : truthyStr ev.object.subscription = true) :
    StoreEquiv (webhook key sig w (webhook key sig w store).store).store
      (webhook key sig w store).store := by
  simp [webhook, webhookDispatch, hsig, hkey, hev, ht, huid, hsub]
  apply runBranchWrite_store_idem

/-- Sample invoice.payment_succeeded event used to instantiate theorems. -/
def sampleInvoiceEvent : Event :=
  { type := "invoice.payment_succeeded",
    object :=
      { id := "sub_1", customer := "cus_1", status := "active",
        items := [⟨⟨"price_x"⟩⟩], created := 5,
        current_period_start := 1, current_period_end := 2,
        cancel_at_period_end := false, subscription := some "sub_1",
        amount_paid := 999, invoice_pdf := "pdf" } }

/-- Sample webhook oracle: verification succeeds with the sample invoice
event and every customer carries uid u1 in its metadata. -/
def sampleInvoiceWorld : WebhookWorld :=
  { constructEvent := Except.ok sampleInvoiceEvent,
    customers := fun _ => ⟨⟨some "u1"⟩⟩ }

/-- Sample store holding a subscription document for u1 with a planId. -/
def sampleStore : Store :=
  [("u1", [("planId", Value.str "price_old"),
           ("lastPaymentDate", Value.date 5000)])]

theorem c1_witness :
    truthyStr (some "sig") = true ∧
    truthyStr (some "whsec") = true ∧
    sampleInvoiceWorld.constructEvent = Except.ok sampleInvoiceEvent ∧
    sampleInvoiceEvent.type = "invoice.payment_succeeded" ∧
    truthyStr (sampleInvoiceWorld.customers
      sampleInvoiceEvent.object.customer).metadata.uid = true ∧
    truthyStr sampleInvoiceEvent.object.subscription = true ∧
    StoreEquiv
      (webhook (some "whsec") (some "sig") sampleInvoiceWorld
        (webhook (some "whsec") (some "sig") sampleInvoiceWorld
          sampleStore).store).store
      (webhook (some "whsec") (some "sig") sampleInvoiceWorld
        sampleStore).store :=
  ⟨by decide, by decide, rfl, rfl, by decide, by decide,
   c1_invoice_payment_succeeded_replay_idempotent (some "whsec") (some "sig")
     sampleInvoiceWorld sampleStore sampleInvoiceEvent (by decide) (by decide)
     rfl rfl (by decide) (by decide)⟩

theorem viewField_runBranchWrite_notWritten (store : Store) (uid : String)
    (fields : List (String × Value)) (calls : List ExtCall) (k : String)
    (h : lastBinding fields k = none) (u : String) :
    viewField (runBranchWrite store uid fields calls).store u k =
      viewField store u k := by
  unfold runBranchWrite
  cases hd : updateDocStore store uid fields with
  | none => rfl
  | some s1 =>
    simp only
    unfold updateDocStore at hd
    cases hg : getDocu store uid with
    | none => rw [hg] at hd; exact absurd hd (by simp)
    | some d =>
      rw [hg] at hd
      simp only [Option.some.injEq] at hd
      subst hd
      rw [viewField_insertA]
      by_cases hu : u = uid
      · subst hu
        unfold viewField
        rw [hg]
        simp only [Option.map_some, if_pos rfl, Option.some.injEq]
        rw [getField_updateFields]
        simp [h]
      · simp [hu]

/-- C2 counterexample: the claim states that the pending-document write of
the Payment-Intent Issuer leaves fields set by earlier webhooks, such as
lastPaymentDate, unchanged.  On a store whose document for u1 carries
lastPaymentDate (and planId), a successful payment-sheet request for u1
erases both fields: the setDoc call replaces the whole document. -/
theorem c2_counterexample :
    viewField (paymentSheet (some "u1") (some "price_x")
      ⟨Except.ok "cus_9", Except.ok "ek", Except.ok ("sub_9", "cs"), none⟩
      [("u1", [("planId", Value.str "price_old"),
               ("lastPaymentDate", Value.date 5000)])]).store
      "u1" "lastPaymentDate" = some none ∧
    ¬ viewField (paymentSheet (some "u1") (some "price_x")
      ⟨Except.ok "cus_9", Except.ok "ek", Except.ok ("sub_9", "cs"), none⟩
      [("u1", [("planId", Value.str "price_old"),
               ("lastPaymentDate", Value.date 5000)])]).store
      "u1" "lastPaymentDate" = some (some (Value.date 5000)) := by
  constructor
  · rfl
  · decide

/-- C2 amended: webhook writes are field-level merges: a verified
invoice.payment_succeeded event, which updates status, leaves a previously
set planId unchanged in every document.  The pending-document write of the
Payment-Intent Issuer, however, is a full-document replacement: after a
successful payment-sheet request the document for the uid holds exactly the
five pending fields, so a previously set lastPaymentDate is erased. -/
theorem c2_amended_merge_vs_replace :
    (∀ (key sig : Option String) (w : WebhookWorld) (store : Store)
      (ev : Event) (u1 : String),
      truthyStr sig = true → truthyStr key = true →
      w.constructEvent = Except.ok ev →
      ev.type = "invoice.payment_succeeded" →
      viewField (webhook key sig w store).store u1 "planId" =
        viewField store u1 "planId") ∧
    (∀ (u : String) (priceId : Option String) (w : PaymentSheetWorld)
      (store : Store) (c e sid cs : String),
      w.createCustomer = Except.ok c →
      w.createEphemeralKey = Except.ok e →
      w.createSubscription = Except.ok (sid, cs) →
      w.setDocErr = none →
      getDocu (paymentSheet (some u) priceId w store).store u =
        some (pendingFields u c sid) ∧
      viewField (paymentSheet (some u) priceId w store).store u
        "lastPaymentDate" = some none) := by
  constructor
  · intro key sig w store ev u1 hsig hkey hev ht
    simp [webhook, webhookDispatch, hsig, hkey, hev, ht]
    by_cases h1 : truthyStr (w.customers ev.object.customer).metadata.uid =
        false
    · simp [h1]
    · simp [h1]
      by_cases h2 : truthyStr ev.object.subscription = true
      · simp [h2]
        exact viewField_runBranchWrite_notWritten _ _ _ _ _
          (by simp [invoiceSucceededFields, lastBinding]) u1
      · simp [h2]
  · intro u priceId w store c e sid cs h1 h2 h3 h4
    simp [paymentSheet, h1, h2, h3, h4, setDocStore]
    constructor
    · unfold getDocu
      rw [lookupA_insertA]
      simp
    · unfold viewField getDocu
      rw [lookupA_insertA]
      simp [pendingFields, getField, lookupA]

theorem c2_witness :
    getDocu (paymentSheet (some "u1") (some "price_x")
      ⟨Except.ok "cus_9", Except.ok "ek", Except.ok ("sub_9", "cs"), none⟩
      [("u1", [("planId", Value.str "price_old")])]).store "u1" =
      some (pendingFields "u1" "cus_9" "sub_9") ∧
    viewField (paymentSheet (some "u1") (some "price_x")
      ⟨Except.ok "cus_9", Except.ok "ek", Except.ok ("sub_9", "cs"), none⟩
      [("u1", [("planId", Value.str "price_old")])]).store "u1"
      "lastPaymentDate" = some none ∧
    viewField (webhook (some "whsec") (some "sig") sampleInvoiceWorld
      sampleStore).store "u1" "planId" =
      viewField sampleStore "u1" "planId" :=
  ⟨(c2_amended_merge_vs_replace.2 "u1" (some "price_x")
     ⟨Except.ok "cus_9", Except.ok "ek", Except.ok ("sub_9", "cs"), none⟩
     [("u1", [("planId", Value.str "price_old")])] "cus_9" "ek" "sub_9" "cs"
     rfl rfl rfl rfl).1,
   (c2_amended_merge_vs_replace.2 "u1" (some "price_x")
     ⟨Except.ok "cus_9", Except.ok "ek", Except.ok ("sub_9", "cs"), none⟩
     [("u1", [("planId", Value.str "price_old")])] "cus_9" "ek" "sub_9" "cs"
     rfl rfl rfl rfl).2,
   c2_amended_merge_vs_replace.1 (some "whsec") (some "sig")
     sampleInvoiceWorld sampleStore sampleInvoiceEvent "u1" (by decide)
     (by decide) rfl rfl⟩

/-- C3: a webhook request with a missing stripe-signature header is
answered 400 with a descriptive error body; with the header present but the
configured signing secret missing, 500; with both present but signature
verification failing, 400 with the verification error message.  In all
three cases the store is returned unchanged and no outbound call (in
particular no document write) is issued. -/
theorem c3_webhook_rejects_unverified (key sig : Option String)
    (w : WebhookWorld) (store : Store) :
    (truthyStr sig = false →
      webhook key sig w store =
        ⟨⟨400, RespBody.errorMsg "Webhook Error: Missing signature"⟩, store,
          ["Missing Stripe signature header"], []⟩) ∧
    (truthyStr sig = true → truthyStr key = false →
      webhook key sig w store =
        ⟨⟨500, RespBody.errorMsg "Server configuration error"⟩, store,
          ["Missing STRIPE_WEBHOOK_SECRET environment variable"], []⟩) ∧
    (∀ m, truthyStr sig = true → truthyStr key = true →
      w.constructEvent = Except.error m →
      webhook key sig w store =
        ⟨⟨400, RespBody.errorMsg ("Webhook Error: " ++ m)⟩, store,
          ["Webhook Signature Error: " ++ m], []⟩) := by
  refine ⟨fun h1 => ?_, fun h1 h2 => ?_, fun m h1 h2 h3 => ?_⟩
  · simp [webhook, h1]
  · simp [webhook, h1, h2]
  · simp [webhook, h1, h2, h3]

theorem c3_witness :
    truthyStr (none : Option String) = false ∧
    webhook (some "whsec") none
      { constructEvent := Except.error "sig", customers := fun _ => ⟨⟨none⟩⟩ }
      sampleStore =
      ⟨⟨400, RespBody.errorMsg "Webhook Error: Missing signature"⟩,
        sampleStore, ["Missing Stripe signature header"], []⟩ ∧
    webhook none (some "sig")
      { constructEvent := Except.error "sig", customers := fun _ => ⟨⟨none⟩⟩ }
      sampleStore =
      ⟨⟨500, RespBody.errorMsg "Server configuration error"⟩, sampleStore,
        ["Missing STRIPE_WEBHOOK_SECRET environment variable"], []⟩ ∧
    webhook (some "whsec") (some "sig")
      { constructEvent := Except.error "bad signature",
        customers := fun _ => ⟨⟨none⟩⟩ } sampleStore =
      ⟨⟨400, RespBody.errorMsg ("Webhook Error: " ++ "bad signature")⟩,
        sampleStore, ["Webhook Signature Error: " ++ "bad signature"], []⟩ :=
  ⟨by decide,
   (c3_webhook_rejects_unverified (some "whsec") none
     { constructEvent := Except.error "sig", customers := fun _ => ⟨⟨none⟩⟩ }
     sampleStore).1 (by decide),
   (c3_webhook_rejects_unverified none (some "sig")
     { constructEvent := Except.error "sig", customers := fun _ => ⟨⟨none⟩⟩ }
     sampleStore).2.1 (by decide) (by decide),
   (c3_webhook_rejects_unverified (some "whsec") (some "sig")
     { constructEvent := Except.error "bad signature",
       customers := fun _ => ⟨⟨none⟩⟩ } sampleStore).2.2 "bad signature"
     (by decide) (by decide) rfl⟩

/-- C4: for a verified webhook event of one of the four handled types whose
customer object carries no truthy uid in its metadata, the handler answers
400 with body error UID not found in metadata, the store is unchanged, and
the only outbound call is the customer retrieval: no document write is
issued. -/
theorem c4_uid_missing_rejected (key sig : Option String) (w : WebhookWorld)
    (store : Store) (ev : Event)
    (hsig : truthyStr sig = true)
    (hkey : truthyStr key = true)
    (hev : w.constructEvent = Except.ok ev)
    (ht : ev.type = "customer.subscription.created" ∨
      ev.type = "customer.subscription.updated" ∨
      ev.type = "invoice.payment_succeeded" ∨
      ev.type = "invoice.payment_failed")
    (huid : truthyStr (w.customers ev.object.customer).metadata.uid = false) :
    (webhook key sig w store).resp =
      ⟨400, RespBody.errorMsg "UID not found in metadata"⟩ ∧
    (webhook key sig w store).store = store ∧
    (webhook key sig w store).calls =
      [ExtCall.retrieveCustomer ev.object.customer] := by
  rcases ht with ht | ht | ht | ht <;>
    simp [webhook, webhookDispatch, hsig, hkey, hev, ht, huid]

/-- Webhook oracle whose customers carry no uid in their metadata. -/
def noUidWorld : WebhookWorld :=
  { constructEvent := Except.ok sampleInvoiceEvent,
    customers := fun _ => ⟨⟨none⟩⟩ }

theorem c4_witness :
    truthyStr (some "sig") = true ∧
    truthyStr (some "whsec") = true ∧
    noUidWorld.constructEvent = Except.ok sampleInvoiceEvent ∧
    truthyStr (noUidWorld.customers
      sampleInvoiceEvent.object.customer).metadata.uid = false ∧
    (webhook (some "whsec") (some "sig") noUidWorld sampleStore).resp =
      ⟨400, RespBody.errorMsg "UID not found in metadata"⟩ ∧
    (webhook (some "whsec") (some "sig") noUidWorld sampleStore).store =
      sampleStore ∧
    (webhook (some "whsec") (some "sig") noUidWorld sampleStore).calls =
      [ExtCall.retrieveCustomer sampleInvoiceEvent.object.customer] :=
  ⟨by decide, by decide, rfl, by decide,
   c4_uid_missing_rejected (some "whsec") (some "sig") noUidWorld sampleStore
     sampleInvoiceEvent (by decide) (by decide) rfl
     (Or.inr (Or.inr (Or.inl rfl))) (by decide)⟩

/-- C5: a cancellation request for a uid with no subscription document is
answered 404; one whose document has no truthy subscriptionId is answered
400.  In both cases the only outbound call is the document read: the
billing provider is never called and the store is returned unchanged. -/
theorem c5_cancel_guards (uid : String) (w : CancelWorld) (store : Store)
    (huid : truthyStr (some uid) = true) :
    (getDocu store uid = none →
      cancelSubscription (some uid) w store =
        ⟨⟨404, RespBody.errorMsg "No subscription found"⟩, store,
          [ExtCall.getDocOp uid]⟩) ∧
    (∀ d, getDocu store uid = some d →
      truthyVal (getField d "subscriptionId") = false →
      cancelSubscription (some uid) w store =
        ⟨⟨400, RespBody.errorMsg "No active subscription ID found"⟩, store,
          [ExtCall.getDocOp uid]⟩) := by
  constructor
  · intro h
    simp [cancelSubscription, huid, jsStr, h]
  · intro d hd hsid
    simp [cancelSubscription, huid, jsStr, hd, hsid]

theorem c5_witness :
    truthyStr (some "u2") = true ∧
    getDocu sampleStore "u2" = none ∧
    cancelSubscription (some "u2") ⟨Except.ok 77, none, 123⟩ sampleStore =
      ⟨⟨404, RespBody.errorMsg "No subscription found"⟩, sampleStore,
        [ExtCall.getDocOp "u2"]⟩ ∧
    truthyStr (some "u1") = true ∧
    getDocu sampleStore "u1" =
      some [("planId", Value.str "price_old"),
            ("lastPaymentDate", Value.date 5000)] ∧
    truthyVal (getField [("planId", Value.str "price_old"),
      ("lastPaymentDate", Value.date 5000)] "subscriptionId") = false ∧
    cancelSubscription (some "u1") ⟨Except.ok 77, none, 123⟩ sampleStore =
      ⟨⟨400, RespBody.errorMsg "No active subscription ID found"⟩,
        sampleStore, [ExtCall.getDocOp "u1"]⟩ :=
  ⟨by decide, by decide,
   (c5_cancel_guards "u2" ⟨Except.ok 77, none, 123⟩ sampleStore
     (by decide)).1 (by decide),
   by decide, by decide, by decide,
   (c5_cancel_guards "u1" ⟨Except.ok 77, none, 123⟩ sampleStore
     (by decide)).2
     [("planId", Value.str "price_old"), ("lastPaymentDate", Value.date 5000)]
     (by decide) (by decide)⟩

/-- C6: a cancellation request for a uid whose document carries a truthy
subscriptionId, when the provider update succeeds and the document write
does not throw, asks the provider for cancel-at-period-end (not immediate
cancellation), answers 200 with success true, the fixed message and data
status cancelling with the refreshed currentPeriodEnd, and merges status
cancelling, cancelAtPeriodEnd true, a cancelledAt timestamp and the
refreshed currentPeriodEnd into the document. -/
theorem c6_cancel_success (uid : String) (w : CancelWorld) (store : Store)
    (d : Doc) (cpe : Int)
    (huid : truthyStr (some uid) = true)
    (hd : getDocu store uid = some d)
    (hsid : truthyVal (getField d "subscriptionId") = true)
    (hupd : w.updateSubscription = Except.ok cpe)
    (herr : w.updateDocErr = none) :
    (cancelSubscription (some uid) w store).resp =
      ⟨200, RespBody.cancelOk cancelMessage (Value.date (cpe * 1000))⟩ ∧
    (cancelSubscription (some uid) w store).calls =
      [ExtCall.getDocOp uid,
       ExtCall.updateSubscription (valStr (getField d "subscriptionId")) true,
       ExtCall.updateDocOp uid] ∧
    viewField (cancelSubscription (some uid) w store).store uid "status" =
      some (some (Value.str "cancelling")) ∧
    viewField (cancelSubscription (some uid) w store).store uid
      "cancelAtPeriodEnd" = some (some (Value.boolean true)) ∧
    viewField (cancelSubscription (some uid) w store).store uid
      "cancelledAt" = some (some (Value.date w.now)) ∧
    viewField (cancelSubscription (some uid) w store).store uid
      "currentPeriodEnd" = some (some (Value.date (cpe * 1000))) := by
  have hstep : updateDocStore store uid (cancelFields w.now cpe) =
      some (insertA store uid (updateFields d (cancelFields w.now cpe))) := by
    unfold updateDocStore
    rw [hd]
  have hview : ∀ k v,
      lastBinding (cancelFields w.now cpe) k = some v →
      viewField (insertA store uid
        (updateFields d (cancelFields w.now cpe))) uid k = some (some v) := by
    intro k v hk
    rw [viewField_insertA]
    simp only [if_pos rfl, Option.some.injEq]
    rw [getField_updateFields]
    simp [hk]
  refine ⟨?_, ?_, ?_, ?_, ?_, ?_⟩ <;>
    simp only [cancelSubscription, huid, jsStr, hd, hsid, hupd, herr, hstep,
      Bool.true_eq_false, if_false, reduceIte]
  · rfl
  · exact hview "status" (Value.str "cancelling")
      (by simp [cancelFields, lastBinding])
  · exact hview "cancelAtPeriodEnd" (Value.boolean true)
      (by simp [cancelFields, lastBinding])
  · exact hview "cancelledAt" (Value.date w.now)
      (by simp [cancelFields, lastBinding])
  · exact hview "currentPeriodEnd" (Value.date (cpe * 1000))
      (by simp [cancelFields, lastBinding])

/-- Sample store for cancellation: u1 holds a document with a
subscriptionId. -/
def cancelStore : Store := [("u1", [("subscriptionId", Value.str "sub_1")])]

/-- Sample cancellation oracle: the provider update succeeds returning
current_period_end 77 and the document write does not throw. -/
def cancelWorldOk : CancelWorld := ⟨Except.ok 77, none, 123⟩

theorem c6_witness :
    truthyStr (some "u1") = true ∧
    getDocu cancelStore "u1" = some [("subscriptionId", Value.str "sub_1")] ∧
    truthyVal (getField [("subscriptionId", Value.str "sub_1")]
      "subscriptionId") = true ∧
    cancelWorldOk.updateSubscription = Except.ok 77 ∧
    cancelWorldOk.updateDocErr = none ∧
    ((cancelSubscription (some "u1") cancelWorldOk cancelStore).resp =
      ⟨200, RespBody.cancelOk cancelMessage (Value.date (77 * 1000))⟩ ∧
    (cancelSubscription (some "u1") cancelWorldOk cancelStore).calls =
      [ExtCall.getDocOp "u1",
       ExtCall.updateSubscription (valStr (getField
         [("subscriptionId", Value.str "sub_1")] "subscriptionId")) true,
       ExtCall.updateDocOp "u1"] ∧
    viewField (cancelSubscription (some "u1") cancelWorldOk cancelStore).store
      "u1" "status" = some (some (Value.str "cancelling")) ∧
    viewField (cancelSubscription (some "u1") cancelWorldOk cancelStore).store
      "u1" "cancelAtPeriodEnd" = some (some (Value.boolean true)) ∧
    viewField (cancelSubscription (some "u1") cancelWorldOk cancelStore).store
      "u1" "cancelledAt" = some (some (Value.date cancelWorldOk.now)) ∧
    viewField (cancelSubscription (some "u1") cancelWorldOk cancelStore).store
      "u1" "currentPeriodEnd" = some (some (Value.date (77 * 1000)))) :=
  ⟨by decide, by decide, by decide, rfl, rfl,
   c6_cancel_success "u1" cancelWorldOk cancelStore
     [("subscriptionId", Value.str "sub_1")] 77 (by decide) (by decide)
     (by decide) rfl rfl⟩

/-- C7: a verified webhook event whose type is none of the four handled
types is a no-op: the handler logs the event type, answers 200 with body
received true, leaves the store unchanged and issues no outbound call. -/
theorem c7_unhandled_event_noop (key sig : Option String) (w : WebhookWorld)
    (store : Store) (ev : Event)
    (hsig : truthyStr sig = true)
    (hkey : truthyStr key = true)
    (hev : w.constructEvent = Except.ok ev)
    (ht1 : ev.type ≠ "customer.subscription.created")
    (ht2 : ev.type ≠ "customer.subscription.updated")
    (ht3 : ev.type ≠ "invoice.payment_succeeded")
    (ht4 : ev.type ≠ "invoice.payment_failed") :
    webhook key sig w store =
      ⟨⟨200, RespBody.received⟩, store,
        ["Webhook event received: " ++ ev.type,
         "Unhandled event type: " ++ ev.type], []⟩ := by
  simp [webhook, webhookDispatch, hsig, hkey, hev, ht1, ht2, ht3, ht4]

/-- Sample customer.subscription.deleted event: the type is handled by
neither branch of the dispatch in src/server.js. -/
def sampleDeletedEvent : Event :=
  { type := "customer.subscription.deleted",
    object :=
      { id := "sub_1", customer := "cus_1", status := "canceled",
        items := [⟨⟨"price_x"⟩⟩], created := 5,
        current_period_start := 1, current_period_end := 2,
        cancel_at_period_end := false, subscription := none,
        amount_paid := 0, invoice_pdf := "" } }

/-- Webhook oracle delivering the sample deleted event. -/
def sampleDeletedWorld : WebhookWorld :=
  { constructEvent := Except.ok sampleDeletedEvent,
    customers := fun _ => ⟨⟨some "u1"⟩⟩ }

theorem c7_witness :
    truthyStr (some "sig") = true ∧
    truthyStr (some "whsec") = true ∧
    sampleDeletedWorld.constructEvent = Except.ok sampleDeletedEvent ∧
    sampleDeletedEvent.type ≠ "customer.subscription.created" ∧
    sampleDeletedEvent.type ≠ "customer.subscription.updated" ∧
    sampleDeletedEvent.type ≠ "invoice.payment_succeeded" ∧
    sampleDeletedEvent.type ≠ "invoice.payment_failed" ∧
    webhook (some "whsec") (some "sig") sampleDeletedWorld sampleStore =
      ⟨⟨200, RespBody.received⟩, sampleStore,
        ["Webhook event received: " ++ sampleDeletedEvent.type,
         "Unhandled event type: " ++ sampleDeletedEvent.type], []⟩ :=
  ⟨by decide, by decide, rfl, by decide, by decide, by decide, by decide,
   c7_unhandled_event_noop (some "whsec") (some "sig") sampleDeletedWorld
     sampleStore sampleDeletedEvent (by decide) (by decide) rfl (by decide)
     (by decide) (by decide) (by decide)⟩

/-- C8 counterexample: the claim states that a payment-sheet request
missing the required uid is answered 400 with a field-specific message
before the billing provider is contacted.  In fact the handler performs no
parameter validation: with uid absent it still issues all three provider
calls, and when they succeed the client-visible (first) response has
status 200. -/
theorem c8_counterexample :
    (paymentSheet none (some "price_x")
      ⟨Except.ok "cus_9", Except.ok "ek", Except.ok ("sub_9", "cs"), none⟩
      []).calls ≠ [] ∧
    ((paymentSheet none (some "price_x")
      ⟨Except.ok "cus_9", Except.ok "ek", Except.ok ("sub_9", "cs"), none⟩
      []).resps.head?).map Resp.status = some 200 := by
  constructor
  · decide
  · rfl

/-- C8 amended: the cancellation handler does validate its parameter: a
request with a falsy uid is answered 400 with the field-specific message
UID is required, the store is unchanged and no outbound call at all (to
provider or store) is issued.  The payment-sheet handler performs no
parameter validation: for every request, including those missing uid or
priceId, its first outbound action is the provider customer creation. -/
theorem c8_amended_param_validation :
    (∀ (uid : Option String) (w : CancelWorld) (store : Store),
      truthyStr uid = false →
      cancelSubscription uid w store =
        ⟨⟨400, RespBody.errorMsg "UID is required"⟩, store, []⟩) ∧
    (∀ (uid priceId : Option String) (w : PaymentSheetWorld) (store : Store),
      (paymentSheet uid priceId w store).calls.head? =
        some (ExtCall.createCustomer ("User-" ++ jsStr uid) uid)) := by
  constructor
  · intro uid w store h
    simp [cancelSubscription, h]
  · intro uid priceId w store
    rcases hc : w.createCustomer with m | c
    · simp [paymentSheet, hc]
    · rcases he : w.createEphemeralKey with m | e
      · simp [paymentSheet, hc, he]
      · rcases hs : w.createSubscription with m | p
        · simp [paymentSheet, hc, he, hs]
        · obtain ⟨sid, cs⟩ := p
          cases uid with
          | none => simp [paymentSheet, hc, he, hs]
          | some u =>
            cases hd : w.setDocErr with
            | none => simp [paymentSheet, hc, he, hs, hd]
            | some m => simp [paymentSheet, hc, he, hs, hd]

theorem c8_witness :
    truthyStr (none : Option String) = false ∧
    cancelSubscription none cancelWorldOk sampleStore =
      ⟨⟨400, RespBody.errorMsg "UID is required"⟩, sampleStore, []⟩ ∧
    (paymentSheet none none
      ⟨Except.ok "cus_9", Except.ok "ek", Except.ok ("sub_9", "cs"), none⟩
      sampleStore).calls.head? =
      some (ExtCall.createCustomer ("User-" ++ jsStr none) none) :=
  ⟨by decide,
   c8_amended_param_validation.1 none cancelWorldOk sampleStore (by decide),
   c8_amended_param_validation.2 none none
     ⟨Except.ok "cus_9", Except.ok "ek", Except.ok ("sub_9", "cs"), none⟩
     sampleStore⟩

/-- C9: the payment-sheet handler sends the 200 response with the client
secrets before writing the pending document; when all three provider calls
succeed and the document write then throws, the client-visible (first)
response is still the 200 success body, not a 400 error, and the store is
unchanged. -/
theorem c9_response_sent_before_write (u : String) (priceId : Option String)
    (w : PaymentSheetWorld) (store : Store) (c e sid cs m : String)
    (h1 : w.createCustomer = Except.ok c)
    (h2 : w.createEphemeralKey = Except.ok e)
    (h3 : w.createSubscription = Except.ok (sid, cs))
    (h4 : w.setDocErr = some m) :
    (paymentSheet (some u) priceId w store).resps.head? =
      some ⟨200, RespBody.paymentSheet cs e c sid⟩ ∧
    (paymentSheet (some u) priceId w store).store = store := by
  constructor <;> simp [paymentSheet, h1, h2, h3, h4]

theorem c9_witness :
    (⟨Except.ok "cus_9", Except.ok "ek", Except.ok ("sub_9", "cs"),
      some "firestore down"⟩ : PaymentSheetWorld).createCustomer =
      Except.ok "cus_9" ∧
    (⟨Except.ok "cus_9", Except.ok "ek", Except.ok ("sub_9", "cs"),
      some "firestore down"⟩ : PaymentSheetWorld).setDocErr =
      some "firestore down" ∧
    (paymentSheet (some "u1") (some "price_x")
      ⟨Except.ok "cus_9", Except.ok "ek", Except.ok ("sub_9", "cs"),
        some "firestore down"⟩ sampleStore).resps.head? =
      some ⟨200, RespBody.paymentSheet "cs" "ek" "cus_9" "sub_9"⟩ ∧
    (paymentSheet (some "u1") (some "price_x")
      ⟨Except.ok "cus_9", Except.ok "ek", Except.ok ("sub_9", "cs"),
        some "firestore down"⟩ sampleStore).store = sampleStore :=
  ⟨rfl, rfl,
   (c9_response_sent_before_write "u1" (some "price_x")
     ⟨Except.ok "cus_9", Except.ok "ek", Except.ok ("sub_9", "cs"),
       some "firestore down"⟩ sampleStore "cus_9" "ek" "sub_9" "cs"
     "firestore down" rfl rfl rfl rfl).1,
   (c9_response_sent_before_write "u1" (some "price_x")
     ⟨Except.ok "cus_9", Except.ok "ek", Except.ok ("sub_9", "cs"),
       some "firestore down"⟩ sampleStore "cus_9" "ek" "sub_9" "cs"
     "firestore down" rfl rfl rfl rfl).2⟩

/-- C10: a verified customer.subscription.created or
customer.subscription.updated event whose subscription object has an empty
items list makes the handler read the price of the first item of an empty
array; the resulting TypeError is thrown while the update payload is being
built, so the handler answers 400 with the error message, the store is
unchanged, and no document write is ever issued: the only outbound call is
the customer retrieval. -/
theorem c10_empty_items_rejected (key sig : Option String)
    (w : WebhookWorld) (store : Store) (ev : Event)
    (hsig : truthyStr sig = true)
    (hkey : truthyStr key = true)
    (hev : w.constructEvent = Except.ok ev)
    (ht : ev.type = "customer.subscription.created" ∨
      ev.type = "customer.subscription.updated")
    (huid : truthyStr (w.customers ev.object.customer).metadata.uid = true)
    (hitems : ev.object.items = []) :
    (webhook key sig w store).resp =
      ⟨400, RespBody.errorMsg itemsTypeErrorMsg⟩ ∧
    (webhook key sig w store).store = store ∧
    (webhook key sig w store).calls =
      [ExtCall.retrieveCustomer ev.object.customer] := by
  rcases ht with ht | ht <;>
    simp [webhook, webhookDispatch, hsig, hkey, hev, ht, huid, hitems]

/-- Sample customer.subscription.created event whose subscription object
has an empty items list. -/
def sampleEmptyItemsEvent : Event :=
  { type := "customer.subscription.created",
    object :=
      { id := "sub_1", customer := "cus_1", status := "incomplete",
        items := [], created := 5, current_period_start := 1,
        current_period_end := 2, cancel_at_period_end := false,
        subscription := none, amount_paid := 0, invoice_pdf := "" } }

/-- Webhook oracle delivering the sample empty-items event. -/
def sampleEmptyItemsWorld : WebhookWorld :=
  { constructEvent := Except.ok sampleEmptyItemsEvent,
    customers := fun _ => ⟨⟨some "u1"⟩⟩ }

theorem c10_witness :
    truthyStr (some "sig") = true ∧
    truthyStr (some "whsec") = true ∧
    sampleEmptyItemsWorld.constructEvent = Except.ok sampleEmptyItemsEvent ∧
    sampleEmptyItemsEvent.type = "customer.subscription.created" ∧
    truthyStr (sampleEmptyItemsWorld.customers
      sampleEmptyItemsEvent.object.customer).metadata.uid = true ∧
    sampleEmptyItemsEvent.object.items = [] ∧
    (webhook (some "whsec") (some "sig") sampleEmptyItemsWorld
      sampleStore).resp = ⟨400, RespBody.errorMsg itemsTypeErrorMsg⟩ ∧
    (webhook (some "whsec") (some "sig") sampleEmptyItemsWorld
      sampleStore).store = sampleStore ∧
    (webhook (some "whsec") (some "sig") sampleEmptyItemsWorld
      sampleStore).calls =
      [ExtCall.retrieveCustomer sampleEmptyItemsEvent.object.customer] :=
  ⟨by decide, by decide, rfl, rfl, by decide, rfl,
   c10_empty_items_rejected (some "whsec") (some "sig")
     sampleEmptyItemsWorld sampleStore sampleEmptyItemsEvent (by decide)
     (by decide) rfl (Or.inl rfl) (by decide) rfl⟩

end StripeBackend
